import Mathlib

/-!
Shallow embedding of the `pget` downloader (src/pyget/main.py) and proofs
about the claims of its natural-language specification.

The embedding models:
  * `validate_response`  — main.py lines 28-33;
  * `download`           — main.py lines 41-67 (with `dlLoop` for the
    streaming loop of lines 63-67);
  * `run_tasks`          — main.py lines 70-93 (a value model returning the
    futures dictionary, and a trace model `runTasksTrace` recording the
    order of the observable actions of the main thread, including the
    `KeyboardInterrupt` handling of lines 88-90);
  * `format_output`      — main.py lines 96-103;
  * `read_urls`          — main.py lines 124-129 (with Python's
    `readlines`/`strip` semantics modelled by `pyReadlines`/`pyStrip`).

Machine-level conventions: file contents are lists of byte values (`Nat`);
the file system is a partial map from path strings to contents; a thread's
captured exception is an `Option String` (what `Future.exception()` returns
to `format_output`); per-chunk nondeterminism of the environment (the state
of the `threading.Event` at each poll, and whether the i-th `f.write`
raises) is supplied by boolean oracles indexed by the chunk position.
-/

namespace PyGet

/-- A file system: maps a path to the byte content of the file stored
there, `none` when no file exists at that path. -/
def FS : Type := String → Option (List Nat)

/-- Open-for-writing with create/truncate semantics followed by writing
`v`: the previous content at `p` (if any) is discarded. Models
`open(path, 'wb')` followed by the writes and the close of the `with`
block. -/
def FS.set (fs : FS) (p : String) (v : List Nat) : FS :=
  fun q => if q = p then some v else fs q

/-- The empty file system. -/
def emptyFS : FS := fun _ => none

/-- An HTTP response as `download` observes it: the status code, the
`content-length` header when present (already converted to a number, as
`int(resp.headers['content-length'])` does on line 57), and the chunk
sequence that `resp.iter_content(chunk_size=...)` yields. -/
structure Response where
  status_code : Nat
  contentLength : Option Nat
  chunks : List (List Nat)

/-- main.py lines 28-33: `validate_response` returns `(ok, reason)`:
not-200 statuses and responses without a `content-length` header are
rejected with a descriptive reason. -/
def validate_response (resp : Response) : Bool × String :=
  if resp.status_code ≠ 200 then
    (false, "Status code " ++ toString resp.status_code)
  else if resp.contentLength.isNone then
    (false, "Response is not a file")
  else
    (true, "")

/-- Left-justify `s` in a field of width `w`, as the format string
built on main.py line 19 does for the progress-bar label. -/
def ljust (s : String) (w : Nat) : String :=
  s ++ String.mk (List.replicate (w - s.length) ' ')

/-- How the body of `download` reached its end — a ghost observation of
the control flow, not data the program stores anywhere. -/
inductive TermKind
  | getError        -- `requests.get` raised
  | validationFailed -- `validate_response` rejected the response (line 52)
  | cancelled       -- `ev.is_set()` observed true at a chunk boundary (line 64)
  | writeError      -- `f.write(data)` raised (line 67)
  | completed       -- the chunk stream was exhausted
deriving DecidableEq, Repr

/-- Result of the streaming loop of main.py lines 63-67. -/
structure LoopOut where
  content : List Nat      -- bytes written to the open file
  progress : Nat          -- number of `pbar.update(1)` calls
  reads : Nat             -- chunks pulled from `resp.iter_content`
  written : Nat           -- chunks actually written by `f.write`
  term : TermKind
  exception : Option String -- exception propagating out of the loop
deriving DecidableEq, Repr

/-- The streaming loop of main.py lines 63-67, one step per chunk the
iterator yields.  `ev i` is the value `ev.is_set()` returns at the i-th
boundary poll; `wf i` tells whether the i-th `f.write` raises.  The order
inside one iteration follows the source exactly: pull the chunk (the
`for` statement), poll the event, update the progress bar, write. -/
def dlLoop (ev wf : Nat → Bool) :
    List (List Nat) → Nat → List Nat → Nat → Nat → LoopOut
  | [], i, content, progress, written =>
      ⟨content, progress, i, written, TermKind.completed, none⟩
  | c :: rest, i, content, progress, written =>
      if ev i then
        ⟨content, progress, i + 1, written, TermKind.cancelled, none⟩
      else if wf i then
        ⟨content, progress + 1, i + 1, written, TermKind.writeError,
          some "OSError"⟩
      else
        dlLoop ev wf rest (i + 1) (content ++ c) (progress + 1) (written + 1)

/-- Everything observable about one run of `download` (main.py lines
41-67): the file system afterwards, which destination file was opened (if
any), the progress-bar label and total set by `init_progress_bar`, the
terminal failure description set on line 53-54, the progress count, the
ghost counters of the loop, and the exception the task's future captures
(`none` when `download` returns normally). -/
structure DlResult where
  fs : FS
  openedPath : Option String
  label : Option String
  total : Option Nat
  statusMsg : Option String
  progress : Nat
  reads : Nat
  written : Nat
  term : TermKind
  exception : Option String

/-- main.py lines 41-67.  `conn` is the outcome of `requests.get(url,
stream=True)`: either an exception or a `Response`.  On validation failure
the function sets the terminal description and returns (lines 52-55); on
success it computes the chunk estimate, derives the file name from the
last `/`-separated segment of the URL (line 61), opens `res_dir/file_name`
for writing and streams the body (lines 62-67).  The `with` block closes
the file on every exit path, leaving whatever content was written. -/
def download (url : String) (conn : Except String Response)
    (res_dir : String) (max_label_size : Nat) (ev wf : Nat → Bool)
    (fs : FS) (chunk_size : Nat) : DlResult :=
  match conn with
  | Except.error e =>
      ⟨fs, none, none, none, none, 0, 0, 0, TermKind.getError, some e⟩
  | Except.ok resp =>
      let vr := validate_response resp
      if vr.1 = false then
        ⟨fs, none, none, none,
          some (url ++ " Failed to fetch. " ++ vr.2),
          0, 0, 0, TermKind.validationFailed, none⟩
      else
        let size := resp.contentLength.getD 0
        let max_iterations := size / chunk_size
        let file_name := (url.splitOn "/").getLastD ""
        let path := res_dir ++ "/" ++ file_name
        let out := dlLoop ev wf resp.chunks 0 [] 0 0
        ⟨FS.set fs path out.content, some path,
          some (ljust url max_label_size), some max_iterations,
          none, out.progress, out.reads, out.written, out.term,
          out.exception⟩

/-- main.py lines 96-103: iterate over the completed futures dictionary
(insertion order) and, for each future whose `exception()` is not `None`,
write a diagnostic with the URL and the formatted exception to stderr.
The result is the ordered list of diagnostics written. -/
def format_output : List (DlResult × String) → List String
  | [] => []
  | (r, url) :: rest =>
      match r.exception with
      | some e =>
          ("\nFailed to fetch " ++ url ++ "\n" ++ e) :: format_output rest
      | none => format_output rest

/-- The errors `run_tasks` itself can raise before dispatching work:
the `assert res_dir.exists()` of line 73 (an `AssertionError`, which the
spec's taxonomy names `InvalidArgument`), and the `ValueError` that
`max(urls, key=...)` raises on line 75 for an empty sequence. -/
inductive PyError
  | assertionFailed
  | valueError
deriving DecidableEq, Repr

/-- Model of `concurrent.futures.as_completed`: reorders the futures by
the completion order of the tasks.  On main.py line 87 its result is
discarded (the iterator is never consumed). -/
def as_completed (futures : List (Nat × String)) (completionOrder : List Nat) :
    List (Nat × String) :=
  completionOrder.filterMap (fun i => futures[i]?)

/-- Value model of main.py lines 70-93.  The returned value is the
`futures` dictionary built on lines 83-86: each `ex.submit` call produces
a fresh future, so the dictionary keys are distinct even for duplicate
URLs; we represent a future by its submission index.  Dictionary order is
insertion order, i.e. input order.  `completionOrder` feeds the
`as_completed` call of line 87, whose result the source never consumes. -/
def run_tasks (dirs : List String) (res_dir : String) (urls : List String)
    (completionOrder : List Nat) : Except PyError (List (Nat × String)) :=
  if res_dir ∈ dirs then
    if urls.isEmpty then
      Except.error PyError.valueError
    else
      let _max_len := (urls.map String.length).foldl Nat.max 0 + 1
      let futures := urls.enum
      let _discarded := as_completed futures completionOrder
      Except.ok futures
  else
    Except.error PyError.assertionFailed

/-- The alphabet of observable actions of the main thread inside
`run_tasks` (main.py lines 70-93).  `mkdir` is in the alphabet of file
system actions the orchestrator could take but never does. -/
inductive Ev
  | assertDir (ok : Bool)     -- `assert res_dir.exists()` (line 73)
  | mkdir (d : String)        -- directory creation (never emitted)
  | computeMaxLen             -- `max(urls, key=...)` (line 75)
  | createBars (n : Nat)      -- progress-bar construction (line 76)
  | submit (i : Nat) (url : String) -- `ex.submit(download, ...)` (line 84)
  | asCompleted               -- `as_completed(futures)` call (line 87)
  | waitAll                   -- executor shutdown join completed
  | waitInterrupted           -- executor shutdown join cut short by the interrupt
  | evSet                     -- `ev.set()` (line 89)
  | closeBars                 -- `close_pbars(progress_bars)` (line 92)
  | reraise                   -- `raise` re-raising the interrupt (line 90)
  | raiseError (e : PyError)  -- AssertionError / ValueError propagating
  | returnFutures             -- normal return (line 93)
deriving DecidableEq, Repr

/-- Where, inside the `try` block, the external `KeyboardInterrupt`
arrives.  `duringSubmit k` means during the k-th `ex.submit` call (capped
at the number of URLs); `duringWait` means while the executor's
`__exit__`/`shutdown(wait=True)` is joining the worker threads — the
place where essentially all wall-clock time is spent. -/
inductive Interrupt
  | duringSubmit (k : Nat)
  | duringWait
deriving DecidableEq, Repr

/-- The submit events for a URL list, in submission order. -/
def submitEvents (urls : List String) : List Ev :=
  urls.enum.map (fun p => Ev.submit p.1 p.2)

/-- Trace model of main.py lines 70-93: the ordered observable actions of
the main thread, as a function of whether the output directory exists and
of where (if anywhere) the external interrupt arrives.

Python semantics being modelled: a `KeyboardInterrupt` raised in the body
of the `with ThreadPoolExecutor(...)` statement first runs the context
manager's `__exit__`, i.e. `shutdown(wait=True)`, which joins all already
submitted tasks to completion — only afterwards does the `except
KeyboardInterrupt` handler of line 88 run `ev.set()` and `raise`.  An
interrupt arriving during that join itself cuts the join short; the
handler then runs `ev.set()` and re-raises with no further join inside
`run_tasks`.  The `finally` of line 91 closes the progress bars on every
path. -/
def runTasksTrace (dirExists : Bool) (urls : List String)
    (intr : Option Interrupt) : List Ev :=
  if dirExists then
    if urls.isEmpty then
      [Ev.assertDir true, Ev.computeMaxLen, Ev.raiseError PyError.valueError]
    else
      Ev.assertDir true :: Ev.computeMaxLen :: Ev.createBars urls.length ::
        (match intr with
         | none =>
             submitEvents urls ++
               [Ev.asCompleted, Ev.waitAll, Ev.closeBars, Ev.returnFutures]
         | some (Interrupt.duringSubmit k) =>
             submitEvents (urls.take k) ++
               [Ev.waitAll, Ev.evSet, Ev.closeBars, Ev.reraise]
         | some Interrupt.duringWait =>
             submitEvents urls ++
               [Ev.asCompleted, Ev.waitInterrupted, Ev.evSet, Ev.closeBars,
                 Ev.reraise])
  else
    [Ev.assertDir false, Ev.raiseError PyError.assertionFailed]

/-- Is there, somewhere in the trace, a `waitAll` that is followed
(later) by a `reraise`?  Scanning helper for `drainsAfterSignal`. -/
def waitThenReraise : List Ev → Bool
  | [] => false
  | a :: rest =>
      (if a = Ev.waitAll then rest.contains Ev.reraise else false) ||
        waitThenReraise rest

/-- The temporal property claimed by the spec for the interrupt path:
somewhere in the trace the cancellation token is signalled, later a
complete wait for the in-flight tasks happens, and later still the
interrupt is re-raised. -/
def drainsAfterSignal : List Ev → Bool
  | [] => false
  | a :: rest =>
      (if a = Ev.evSet then waitThenReraise rest else false) ||
        drainsAfterSignal rest

/-- Python `str.strip` whitespace (the ASCII part, which is what URLs
files contain): space, tab, newline, carriage return, vertical tab, form
feed. -/
def isPySpace (c : Char) : Bool :=
  c == ' ' || c == '\t' || c == '\n' || c == '\r' ||
    c == '\x0b' || c == '\x0c'

/-- Python `str.strip()`: remove leading and trailing whitespace. -/
def pyStrip (s : String) : String :=
  String.mk (((s.data.dropWhile isPySpace).reverse.dropWhile
    isPySpace).reverse)

/-- Python `file.readlines()` on text `s`: split into lines, each keeping
its terminating newline; a final fragment without a newline is kept; an
empty file yields no lines. -/
def pyReadlines (s : String) : List String :=
  let parts := s.splitOn "\n"
  (parts.dropLast.map (fun l => l ++ "\n")) ++
    (if parts.getLast? = some "" then [] else [parts.getLastD ""])

/-- main.py lines 124-129 applied to the content of the URL file:
`[url.strip() for url in f.readlines()]`. -/
def read_urls (s : String) : List String :=
  (pyReadlines s).map pyStrip

/-- Does a string start and end with a non-whitespace character (or is it
empty)?  Used to state that `pyStrip` strips completely. -/
def noEdgeSpace (s : String) : Bool :=
  !(s.data.head?.elim false isPySpace) &&
    !(s.data.getLast?.elim false isPySpace)

/-- The per-task record that the orchestrator and the result reporter can
observe for a finished task: `Future.result()` is always `None` (the body
of `download` has no `return value` statement), so the only information a
future carries is the exception it captured. -/
def recordedOutcome (r : DlResult) : Option String :=
  r.exception

/-- Modelled from the spec: the spec's outcome taxonomy (section 7) says a
task's terminal outcome — `Failed(cause)` or `Cancelled` — is recorded
distinctly from `Succeeded` and is what the result reporter consumes.  In
the code the only per-task record is `recordedOutcome`, so an outcome is
visible as a failure if and only if the future captured an exception. -/
def specRecordsFailureOutcome (r : DlResult) : Prop :=
  recordedOutcome r ≠ none

/-! ### Concrete fixtures used by witnesses and counterexamples -/

/-- A 404 response (no body consumed). -/
def respNotFound : Response := ⟨404, none, []⟩

/-- A 200 response without a `content-length` header. -/
def respNoLength : Response := ⟨200, none, [[7]]⟩

/-- A well-formed file response: 200, content-length 5, three bytes in
two chunks of chunk size 2. -/
def respFile : Response := ⟨200, some 5, [[1, 2], [3]]⟩

/-- Event oracle: the cancellation event is never observed set. -/
def evNever : Nat → Bool := fun _ => false

/-- Event oracle: the cancellation event is set from the start. -/
def evAlways : Nat → Bool := fun _ => true

/-- Event oracle: the cancellation event becomes set at boundary 1. -/
def evFromOne : Nat → Bool := fun i => decide (1 ≤ i)

/-- Write oracle: no write ever fails. -/
def wfNever : Nat → Bool := fun _ => false

/-- Write oracle: exactly the write of chunk 0 raises. -/
def wfAtZero : Nat → Bool := fun i => decide (i = 0)

/-- Write oracle: exactly the write of chunk 1 raises. -/
def wfAtOne : Nat → Bool := fun i => decide (i = 1)

/-- A file system already holding stale content at `out/a.bin`, used to
exercise the truncate-on-open semantics. -/
def fsPre : FS :=
  fun q => if q = "out/a.bin" then some [9, 9, 9, 9] else none

/-! ### Helper lemmas about the file system model -/

theorem FS.set_self (fs : FS) (p : String) (v : List Nat) :
    FS.set fs p v p = some v := by
  simp [FS.set]

theorem FS.set_ne (fs : FS) (p q : String) (v : List Nat) (h : q ≠ p) :
    FS.set fs p v q = fs q := by
  simp [FS.set, h]

/-! ### Characterizations of the streaming loop `dlLoop` -/

/-- If neither the cancellation event nor a write failure fires while the
remaining chunks stream, the loop consumes them all, writing and counting
each one, and ends by stream exhaustion. -/
theorem dlLoop_completed (ev wf : Nat → Bool) (chunks : List (List Nat))
    (i : Nat) (content : List Nat) (progress written : Nat)
    (h : ∀ k, k < chunks.length → ev (i + k) = false ∧ wf (i + k) = false) :
    dlLoop ev wf chunks i content progress written =
      ⟨content ++ chunks.flatten, progress + chunks.length,
        i + chunks.length, written + chunks.length, TermKind.completed,
        none⟩ := by
  induction chunks generalizing i content progress written with
  | nil => simp [dlLoop]
  | cons c rest ih =>
      have h0 := h 0 (Nat.succ_pos _)
      rw [Nat.add_zero] at h0
      have hrec : ∀ k, k < rest.length →
          ev (i + 1 + k) = false ∧ wf (i + 1 + k) = false := by
        intro k hk
        have := h (k + 1) (by simpa using Nat.succ_lt_succ hk)
        simpa [Nat.add_assoc, Nat.add_comm 1 k] using this
      simp only [dlLoop, h0.1, h0.2, Bool.false_eq_true, if_false]
      rw [ih _ _ _ _ hrec]
      simp only [List.flatten_cons, List.length_cons, LoopOut.mk.injEq]
      refine ⟨by rw [List.append_assoc], by omega, by omega, by omega,
        trivial, trivial⟩

/-- If the event is first observed set at the boundary of chunk `k` (and
no write failed before), the loop stops there: chunk `k` was pulled from
the iterator but neither counted nor written, and the file content is the
concatenation of the first `k` chunks only. -/
theorem dlLoop_cancelled (ev wf : Nat → Bool) (chunks : List (List Nat))
    (k i : Nat) (content : List Nat) (progress written : Nat)
    (hk : k < chunks.length) (hev : ev (i + k) = true)
    (hbefore : ∀ j, j < k → ev (i + j) = false ∧ wf (i + j) = false) :
    dlLoop ev wf chunks i content progress written =
      ⟨content ++ (chunks.take k).flatten, progress + k, i + k + 1,
        written + k, TermKind.cancelled, none⟩ := by
  induction k generalizing chunks i content progress written with
  | zero =>
      cases chunks with
      | nil => simp at hk
      | cons c rest =>
          rw [Nat.add_zero] at hev
          simp [dlLoop, hev]
  | succ k ih =>
      cases chunks with
      | nil => simp at hk
      | cons c rest =>
          have h0 := hbefore 0 (Nat.succ_pos _)
          rw [Nat.add_zero] at h0
          have hrec : ∀ j, j < k →
              ev (i + 1 + j) = false ∧ wf (i + 1 + j) = false := by
            intro j hj
            have := hbefore (j + 1) (Nat.succ_lt_succ hj)
            simpa [Nat.add_assoc, Nat.add_comm 1 j] using this
          have hev' : ev (i + 1 + k) = true := by
            have : i + 1 + k = i + (k + 1) := by omega
            rw [this]; exact hev
          simp only [dlLoop, h0.1, h0.2, Bool.false_eq_true, if_false]
          rw [ih rest (i + 1) (content ++ c) (progress + 1) (written + 1)
            (by simpa using Nat.lt_of_succ_lt_succ hk) hev' hrec]
          simp only [List.take_succ_cons, List.flatten_cons,
            LoopOut.mk.injEq]
          refine ⟨by rw [List.append_assoc], by omega, by omega, by omega,
            trivial, trivial⟩

/-- If the write of chunk `k` raises (the event never fired up to and
including boundary `k`, no earlier write failed), the loop stops with the
exception: the progress bar was already advanced for chunk `k`, but the
chunk was not written — the progress count exceeds the written count by
one. -/
theorem dlLoop_writeError (ev wf : Nat → Bool) (chunks : List (List Nat))
    (k i : Nat) (content : List Nat) (progress written : Nat)
    (hk : k < chunks.length) (hev : ev (i + k) = false)
    (hwf : wf (i + k) = true)
    (hbefore : ∀ j, j < k → ev (i + j) = false ∧ wf (i + j) = false) :
    dlLoop ev wf chunks i content progress written =
      ⟨content ++ (chunks.take k).flatten, progress + k + 1, i + k + 1,
        written + k, TermKind.writeError, some "OSError"⟩ := by
  induction k generalizing chunks i content progress written with
  | zero =>
      cases chunks with
      | nil => simp at hk
      | cons c rest =>
          rw [Nat.add_zero] at hev hwf
          simp [dlLoop, hev, hwf]
  | succ k ih =>
      cases chunks with
      | nil => simp at hk
      | cons c rest =>
          have h0 := hbefore 0 (Nat.succ_pos _)
          rw [Nat.add_zero] at h0
          have hrec : ∀ j, j < k →
              ev (i + 1 + j) = false ∧ wf (i + 1 + j) = false := by
            intro j hj
            have := hbefore (j + 1) (Nat.succ_lt_succ hj)
            simpa [Nat.add_assoc, Nat.add_comm 1 j] using this
          have hshift : i + 1 + k = i + (k + 1) := by omega
          have hev' : ev (i + 1 + k) = false := by rw [hshift]; exact hev
          have hwf' : wf (i + 1 + k) = true := by rw [hshift]; exact hwf
          simp only [dlLoop, h0.1, h0.2, Bool.false_eq_true, if_false]
          rw [ih rest (i + 1) (content ++ c) (progress + 1) (written + 1)
            (by simpa using Nat.lt_of_succ_lt_succ hk) hev' hwf' hrec]
          simp only [List.take_succ_cons, List.flatten_cons,
            LoopOut.mk.injEq]
          refine ⟨by rw [List.append_assoc], by omega, by omega, by omega,
            trivial, trivial⟩

/-- Reduction of `download` on a response that passes validation: the
destination path is `res_dir/` followed by the final `/`-segment of the
URL, the label and total are set, and all remaining observations come
from the streaming loop. -/
theorem download_valid (url res_dir : String) (mls cs : Nat)
    (resp : Response) (ev wf : Nat → Bool) (fs : FS)
    (hok : (validate_response resp).1 = true) :
    download url (Except.ok resp) res_dir mls ev wf fs cs =
      ⟨FS.set fs (res_dir ++ "/" ++ (url.splitOn "/").getLastD "")
          (dlLoop ev wf resp.chunks 0 [] 0 0).content,
        some (res_dir ++ "/" ++ (url.splitOn "/").getLastD ""),
        some (ljust url mls), some (resp.contentLength.getD 0 / cs), none,
        (dlLoop ev wf resp.chunks 0 [] 0 0).progress,
        (dlLoop ev wf resp.chunks 0 [] 0 0).reads,
        (dlLoop ev wf resp.chunks 0 [] 0 0).written,
        (dlLoop ev wf resp.chunks 0 [] 0 0).term,
        (dlLoop ev wf resp.chunks 0 [] 0 0).exception⟩ := by
  simp [download, hok]

/-! ### Claim C2 — validation failures -/

/-- C2 (amended): for every URL whose response has a status other than
200, or a 200 response with no content-length header, `download` creates
and opens no destination file, leaves the file system untouched, does not
throw (the future captures no exception — so no `Failed(InvalidResponse)`
outcome is recorded; the task's record is indistinguishable from a
success), and reports to the progress sink a terminal status string that
contains the URL and the reason. -/
theorem claim_C2_invalid_response (url res_dir : String) (mls cs : Nat)
    (resp : Response) (ev wf : Nat → Bool) (fs : FS)
    (h : (validate_response resp).1 = false) :
    (download url (Except.ok resp) res_dir mls ev wf fs cs).fs = fs ∧
    (download url (Except.ok resp) res_dir mls ev wf fs cs).openedPath =
      none ∧
    (download url (Except.ok resp) res_dir mls ev wf fs cs).exception =
      none ∧
    (download url (Except.ok resp) res_dir mls ev wf fs cs).term =
      TermKind.validationFailed ∧
    (download url (Except.ok resp) res_dir mls ev wf fs cs).statusMsg =
      some (url ++ " Failed to fetch. " ++ (validate_response resp).2) ∧
    (∃ t, url ++ " Failed to fetch. " ++ (validate_response resp).2 =
      url ++ t) ∧
    (∃ t, url ++ " Failed to fetch. " ++ (validate_response resp).2 =
      t ++ (validate_response resp).2) := by
  refine ⟨?_, ?_, ?_, ?_, ?_, ⟨" Failed to fetch. " ++
    (validate_response resp).2, by rw [String.append_assoc]⟩,
    ⟨url ++ " Failed to fetch. ", by rw [String.append_assoc]⟩⟩ <;>
    simp [download, h]

/-- C2 witness: the theorem applied to a concrete 404 response. -/
theorem claim_C2_witness :
    (download "http://host/a.txt" (Except.ok respNotFound) "out" 14
      evNever wfNever emptyFS 1024).fs = emptyFS ∧
    (download "http://host/a.txt" (Except.ok respNotFound) "out" 14
      evNever wfNever emptyFS 1024).openedPath = none ∧
    (download "http://host/a.txt" (Except.ok respNotFound) "out" 14
      evNever wfNever emptyFS 1024).exception = none ∧
    (download "http://host/a.txt" (Except.ok respNotFound) "out" 14
      evNever wfNever emptyFS 1024).term = TermKind.validationFailed ∧
    (download "http://host/a.txt" (Except.ok respNotFound) "out" 14
      evNever wfNever emptyFS 1024).statusMsg =
      some ("http://host/a.txt" ++ " Failed to fetch. " ++
        (validate_response respNotFound).2) ∧
    (∃ t, "http://host/a.txt" ++ " Failed to fetch. " ++
      (validate_response respNotFound).2 = "http://host/a.txt" ++ t) ∧
    (∃ t, "http://host/a.txt" ++ " Failed to fetch. " ++
      (validate_response respNotFound).2 =
        t ++ (validate_response respNotFound).2) :=
  claim_C2_invalid_response "http://host/a.txt" "out" 14 1024 respNotFound
    evNever wfNever emptyFS rfl

/-- C2 counterexample: for a URL answered with HTTP 404, the claim says
the transfer records the outcome `Failed(InvalidResponse)`; in the code
`download` just returns after setting the progress-bar description, so
the future captures no exception and no failure outcome is recorded —
the record is the one of a successful task. -/
theorem claim_C2_counterexample :
    ¬ specRecordsFailureOutcome
        (download "http://host/a.txt" (Except.ok respNotFound) "out" 14
          evNever wfNever emptyFS 1024) ∧
    (download "http://host/a.txt" (Except.ok respNotFound) "out" 14
        evNever wfNever emptyFS 1024).term = TermKind.validationFailed := by
  exact ⟨fun hc => hc rfl, rfl⟩

/-! ### Claim C4 — cancellation at chunk boundaries -/

/-- C4 (amended): during a validated transfer the cancellation token is
polled at every chunk boundary; if it is first observed set at boundary
`k`, the transfer stops: the chunk just pulled is discarded (k+1 chunks
read, k written, progress k), the partially written file — the first k
chunks — is left on disk as-is, and `download` returns normally.  However
no `Cancelled` outcome is recorded: the future captures no exception, so
the task's record is indistinguishable from a success. -/
theorem claim_C4_cancelled_transfer (url res_dir : String) (mls cs k : Nat)
    (resp : Response) (ev wf : Nat → Bool) (fs : FS)
    (hok : (validate_response resp).1 = true)
    (hk : k < resp.chunks.length) (hev : ev k = true)
    (hbefore : ∀ j, j < k → ev j = false ∧ wf j = false) :
    (download url (Except.ok resp) res_dir mls ev wf fs cs).term =
      TermKind.cancelled ∧
    (download url (Except.ok resp) res_dir mls ev wf fs cs).exception =
      none ∧
    (download url (Except.ok resp) res_dir mls ev wf fs cs).reads = k + 1 ∧
    (download url (Except.ok resp) res_dir mls ev wf fs cs).written = k ∧
    (download url (Except.ok resp) res_dir mls ev wf fs cs).progress = k ∧
    (download url (Except.ok resp) res_dir mls ev wf fs cs).fs
        (res_dir ++ "/" ++ (url.splitOn "/").getLastD "") =
      some (resp.chunks.take k).flatten := by
  have hloop := dlLoop_cancelled ev wf resp.chunks k 0 [] 0 0 hk
    (by simpa using hev) (by intro j hj; simpa using hbefore j hj)
  rw [download_valid url res_dir mls cs resp ev wf fs hok, hloop]
  simp [FS.set_self]

/-- C4 witness: a transfer of two chunks cancelled at boundary 1 keeps
the first chunk on disk and returns normally. -/
theorem claim_C4_witness :
    (download "http://host/f.bin" (Except.ok respFile) "out" 16 evFromOne
      wfNever emptyFS 2).term = TermKind.cancelled ∧
    (download "http://host/f.bin" (Except.ok respFile) "out" 16 evFromOne
      wfNever emptyFS 2).exception = none ∧
    (download "http://host/f.bin" (Except.ok respFile) "out" 16 evFromOne
      wfNever emptyFS 2).reads = 1 + 1 ∧
    (download "http://host/f.bin" (Except.ok respFile) "out" 16 evFromOne
      wfNever emptyFS 2).written = 1 ∧
    (download "http://host/f.bin" (Except.ok respFile) "out" 16 evFromOne
      wfNever emptyFS 2).progress = 1 ∧
    (download "http://host/f.bin" (Except.ok respFile) "out" 16 evFromOne
      wfNever emptyFS 2).fs
        ("out" ++ "/" ++ ("http://host/f.bin".splitOn "/").getLastD "") =
      some (respFile.chunks.take 1).flatten :=
  claim_C4_cancelled_transfer "http://host/f.bin" "out" 16 2 1 respFile
    evFromOne wfNever emptyFS rfl (by decide) rfl
    (fun j hj => by
      have hj0 : j = 0 := by omega
      subst hj0; exact ⟨rfl, rfl⟩)

/-- C4 counterexample: the claim says the outcome of a cancelled task is
recorded as `Cancelled`; in the code a cancelled `download` returns
normally, so its record (the exception captured by the future) is
identical to the record of a fully successful transfer — nothing marks it
as cancelled. -/
theorem claim_C4_counterexample :
    (download "http://host/f.bin" (Except.ok respFile) "out" 16 evAlways
        wfNever emptyFS 2).term = TermKind.cancelled ∧
    (download "http://host/f.bin" (Except.ok respFile) "out" 16 evNever
        wfNever emptyFS 2).term = TermKind.completed ∧
    recordedOutcome
        (download "http://host/f.bin" (Except.ok respFile) "out" 16
          evAlways wfNever emptyFS 2) =
      recordedOutcome
        (download "http://host/f.bin" (Except.ok respFile) "out" 16
          evNever wfNever emptyFS 2) := by
  exact ⟨rfl, rfl, rfl⟩

/-! ### Claim C7 — destination naming and truncate-on-open idempotence -/

/-- Full reduction of an undisturbed validated transfer: every chunk is
streamed to the destination file. -/
theorem download_complete (url res_dir : String) (mls cs : Nat)
    (resp : Response) (ev wf : Nat → Bool) (fs : FS)
    (hok : (validate_response resp).1 = true)
    (hev : ∀ j, ev j = false) (hwf : ∀ j, wf j = false) :
    download url (Except.ok resp) res_dir mls ev wf fs cs =
      ⟨FS.set fs (res_dir ++ "/" ++ (url.splitOn "/").getLastD "")
          resp.chunks.flatten,
        some (res_dir ++ "/" ++ (url.splitOn "/").getLastD ""),
        some (ljust url mls), some (resp.contentLength.getD 0 / cs), none,
        resp.chunks.length, resp.chunks.length, resp.chunks.length,
        TermKind.completed, none⟩ := by
  rw [download_valid url res_dir mls cs resp ev wf fs hok,
    dlLoop_completed ev wf resp.chunks 0 [] 0 0
      (fun k _ => ⟨hev _, hwf _⟩)]
  simp

/-- C7: for every validated transfer that runs to completion, the
destination file is named by the final path segment of the URL, located
at `outputDir/fileName`, and opened with create/truncate semantics: its
final content is exactly the downloaded bytes regardless of what was
stored there before, other paths are untouched, and running the same
download a second time against the resulting file system overwrites the
file with the same content without error. -/
theorem claim_C7_destination_file (url res_dir q : String) (mls cs : Nat)
    (resp : Response) (ev wf : Nat → Bool) (fs : FS)
    (hok : (validate_response resp).1 = true)
    (hev : ∀ j, ev j = false) (hwf : ∀ j, wf j = false)
    (hq : q ≠ res_dir ++ "/" ++ (url.splitOn "/").getLastD "") :
    (download url (Except.ok resp) res_dir mls ev wf fs cs).openedPath =
      some (res_dir ++ "/" ++ (url.splitOn "/").getLastD "") ∧
    (download url (Except.ok resp) res_dir mls ev wf fs cs).term =
      TermKind.completed ∧
    (download url (Except.ok resp) res_dir mls ev wf fs cs).exception =
      none ∧
    (download url (Except.ok resp) res_dir mls ev wf fs cs).fs
        (res_dir ++ "/" ++ (url.splitOn "/").getLastD "") =
      some resp.chunks.flatten ∧
    (download url (Except.ok resp) res_dir mls ev wf fs cs).fs q = fs q ∧
    (download url (Except.ok resp) res_dir mls ev wf
        (download url (Except.ok resp) res_dir mls ev wf fs cs).fs
        cs).term = TermKind.completed ∧
    (download url (Except.ok resp) res_dir mls ev wf
        (download url (Except.ok resp) res_dir mls ev wf fs cs).fs
        cs).exception = none ∧
    (download url (Except.ok resp) res_dir mls ev wf
        (download url (Except.ok resp) res_dir mls ev wf fs cs).fs
        cs).fs (res_dir ++ "/" ++ (url.splitOn "/").getLastD "") =
      some resp.chunks.flatten ∧
    (download url (Except.ok resp) res_dir mls ev wf
        (download url (Except.ok resp) res_dir mls ev wf fs cs).fs
        cs).fs q = fs q := by
  have h1 := download_complete url res_dir mls cs resp ev wf fs hok hev hwf
  rw [h1]
  have h2 := download_complete url res_dir mls cs resp ev wf
    (FS.set fs (res_dir ++ "/" ++ (url.splitOn "/").getLastD "")
      resp.chunks.flatten) hok hev hwf
  rw [h2]
  exact ⟨rfl, rfl, rfl, FS.set_self _ _ _, FS.set_ne _ _ _ _ hq, rfl, rfl,
    FS.set_self _ _ _, (FS.set_ne _ _ _ _ hq).trans (FS.set_ne _ _ _ _ hq)⟩

/-- C7 witness: downloading `http://host/d/a.bin` over a file system that
already holds stale bytes at `out/a.bin` truncates and rewrites that
file, leaving `other` untouched; a second run does the same. -/
theorem claim_C7_witness :
    (download "http://host/d/a.bin" (Except.ok respFile) "out" 20 evNever
        wfNever fsPre 2).openedPath =
      some ("out" ++ "/" ++ ("http://host/d/a.bin".splitOn "/").getLastD
        "") ∧
    (download "http://host/d/a.bin" (Except.ok respFile) "out" 20 evNever
        wfNever fsPre 2).term = TermKind.completed ∧
    (download "http://host/d/a.bin" (Except.ok respFile) "out" 20 evNever
        wfNever fsPre 2).exception = none ∧
    (download "http://host/d/a.bin" (Except.ok respFile) "out" 20 evNever
        wfNever fsPre 2).fs
        ("out" ++ "/" ++ ("http://host/d/a.bin".splitOn "/").getLastD
          "") = some respFile.chunks.flatten ∧
    (download "http://host/d/a.bin" (Except.ok respFile) "out" 20 evNever
        wfNever fsPre 2).fs "other" = fsPre "other" ∧
    (download "http://host/d/a.bin" (Except.ok respFile) "out" 20 evNever
        wfNever
        (download "http://host/d/a.bin" (Except.ok respFile) "out" 20
          evNever wfNever fsPre 2).fs 2).term = TermKind.completed ∧
    (download "http://host/d/a.bin" (Except.ok respFile) "out" 20 evNever
        wfNever
        (download "http://host/d/a.bin" (Except.ok respFile) "out" 20
          evNever wfNever fsPre 2).fs 2).exception = none ∧
    (download "http://host/d/a.bin" (Except.ok respFile) "out" 20 evNever
        wfNever
        (download "http://host/d/a.bin" (Except.ok respFile) "out" 20
          evNever wfNever fsPre 2).fs 2).fs
        ("out" ++ "/" ++ ("http://host/d/a.bin".splitOn "/").getLastD
          "") = some respFile.chunks.flatten ∧
    (download "http://host/d/a.bin" (Except.ok respFile) "out" 20 evNever
        wfNever
        (download "http://host/d/a.bin" (Except.ok respFile) "out" 20
          evNever wfNever fsPre 2).fs 2).fs "other" = fsPre "other" :=
  claim_C7_destination_file "http://host/d/a.bin" "out" "other" 20 2
    respFile evNever wfNever fsPre rfl (fun _ => rfl) (fun _ => rfl)
    (by decide)

/-! ### Claim C10 — ordering of poll, increment and write in the loop -/

/-- C10: in the streaming loop the cancellation check and the
progress-bar increment both happen before the chunk is written.  Part
one: if the token is first observed set at boundary `k`, the chunk just
pulled is discarded — neither written nor counted (`k + 1` reads, `k`
writes, progress `k`, file content the first `k` chunks).  Part two: if
the write of chunk `k` raises, the progress bar was already advanced for
that chunk, so the progress count exceeds the number of chunks actually
written by exactly one. -/
theorem claim_C10_check_and_count_before_write :
    (∀ (url res_dir : String) (mls cs k : Nat) (resp : Response)
        (ev wf : Nat → Bool) (fs : FS),
      (validate_response resp).1 = true → k < resp.chunks.length →
      ev k = true → (∀ j, j < k → ev j = false ∧ wf j = false) →
      (download url (Except.ok resp) res_dir mls ev wf fs cs).reads =
          k + 1 ∧
        (download url (Except.ok resp) res_dir mls ev wf fs cs).written =
          k ∧
        (download url (Except.ok resp) res_dir mls ev wf fs cs).progress =
          k ∧
        (download url (Except.ok resp) res_dir mls ev wf fs cs).fs
            (res_dir ++ "/" ++ (url.splitOn "/").getLastD "") =
          some (resp.chunks.take k).flatten) ∧
    (∀ (url res_dir : String) (mls cs k : Nat) (resp : Response)
        (ev wf : Nat → Bool) (fs : FS),
      (validate_response resp).1 = true → k < resp.chunks.length →
      (∀ j, j ≤ k → ev j = false) → wf k = true →
      (∀ j, j < k → wf j = false) →
      (download url (Except.ok resp) res_dir mls ev wf fs cs).progress =
          k + 1 ∧
        (download url (Except.ok resp) res_dir mls ev wf fs cs).written =
          k ∧
        (download url (Except.ok resp) res_dir mls ev wf fs cs).term =
          TermKind.writeError ∧
        (download url (Except.ok resp) res_dir mls ev wf fs cs).exception =
          some "OSError" ∧
        (download url (Except.ok resp) res_dir mls ev wf fs cs).fs
            (res_dir ++ "/" ++ (url.splitOn "/").getLastD "") =
          some (resp.chunks.take k).flatten) := by
  constructor
  · intro url res_dir mls cs k resp ev wf fs hok hk hev hbefore
    have hloop := dlLoop_cancelled ev wf resp.chunks k 0 [] 0 0 hk
      (by simpa using hev) (by intro j hj; simpa using hbefore j hj)
    rw [download_valid url res_dir mls cs resp ev wf fs hok, hloop]
    simp [FS.set_self]
  · intro url res_dir mls cs k resp ev wf fs hok hk hev hwf hbefore
    have hloop := dlLoop_writeError ev wf resp.chunks k 0 [] 0 0 hk
      (by simpa using hev k (Nat.le_refl k)) (by simpa using hwf)
      (by intro j hj; exact ⟨by simpa using hev j (Nat.le_of_lt hj),
        by simpa using hbefore j hj⟩)
    rw [download_valid url res_dir mls cs resp ev wf fs hok, hloop]
    simp [FS.set_self]

/-- C10 witness: the two parts of the theorem exercised on a concrete
two-chunk transfer — cancellation first observed at boundary 1, and a
write failure at chunk 1. -/
theorem claim_C10_witness :
    ((download "http://host/f.bin" (Except.ok respFile) "out" 16 evFromOne
        wfNever emptyFS 2).reads = 1 + 1 ∧
      (download "http://host/f.bin" (Except.ok respFile) "out" 16
        evFromOne wfNever emptyFS 2).written = 1 ∧
      (download "http://host/f.bin" (Except.ok respFile) "out" 16
        evFromOne wfNever emptyFS 2).progress = 1 ∧
      (download "http://host/f.bin" (Except.ok respFile) "out" 16
          evFromOne wfNever emptyFS 2).fs
          ("out" ++ "/" ++ ("http://host/f.bin".splitOn "/").getLastD
            "") = some (respFile.chunks.take 1).flatten) ∧
    ((download "http://host/f.bin" (Except.ok respFile) "out" 16 evNever
        wfAtOne emptyFS 2).progress = 1 + 1 ∧
      (download "http://host/f.bin" (Except.ok respFile) "out" 16 evNever
        wfAtOne emptyFS 2).written = 1 ∧
      (download "http://host/f.bin" (Except.ok respFile) "out" 16 evNever
        wfAtOne emptyFS 2).term = TermKind.writeError ∧
      (download "http://host/f.bin" (Except.ok respFile) "out" 16 evNever
        wfAtOne emptyFS 2).exception = some "OSError" ∧
      (download "http://host/f.bin" (Except.ok respFile) "out" 16 evNever
          wfAtOne emptyFS 2).fs
          ("out" ++ "/" ++ ("http://host/f.bin".splitOn "/").getLastD
            "") = some (respFile.chunks.take 1).flatten) := by
  constructor
  · exact claim_C10_check_and_count_before_write.1 "http://host/f.bin"
      "out" 16 2 1 respFile evFromOne wfNever emptyFS rfl (by decide) rfl
      (fun j hj => by
        have hj0 : j = 0 := by omega
        subst hj0; exact ⟨rfl, rfl⟩)
  · exact claim_C10_check_and_count_before_write.2 "http://host/f.bin"
      "out" 16 2 1 respFile evNever wfAtOne emptyFS rfl (by decide)
      (fun j _ => rfl) rfl
      (fun j hj => by
        have hj0 : j = 0 := by omega
        subst hj0; rfl)

/-! ### Claim C3 — the result reporter -/

/-- C3 (amended): `format_output` emits a diagnostic exactly for the
entries whose future captured an exception, each containing the URL and
the formatted exception; entries whose task returned normally — which in
this code includes Succeeded, Cancelled and validation-failed transfers —
produce no diagnostic.  Stated universally over arbitrary batches: the
reporter distributes over list concatenation, a single exception-carrying
entry yields exactly its own diagnostic and an exception-free entry
yields nothing (together these determine the output on every batch, at
every position); the number of diagnostics equals the number of
exception-carrying entries; every emitted diagnostic names the URL and
exception of some exception-carrying entry of the batch; and for a batch
of two URLs of which exactly one raised, exactly one diagnostic is
emitted, for that URL, whichever of the two orders the entries are in. -/
theorem claim_C3_reporter :
    (∀ rs1 rs2 : List (DlResult × String),
      format_output (rs1 ++ rs2) =
        format_output rs1 ++ format_output rs2) ∧
    (∀ (r : DlResult) (u e : String), r.exception = some e →
      format_output [(r, u)] = ["\nFailed to fetch " ++ u ++ "\n" ++ e]) ∧
    (∀ (r : DlResult) (u : String), r.exception = none →
      format_output [(r, u)] = []) ∧
    (∀ rs : List (DlResult × String), (format_output rs).length =
      (rs.filter (fun p => p.1.exception.isSome)).length) ∧
    (∀ (rs : List (DlResult × String)) (d : String),
      d ∈ format_output rs → ∃ p, p ∈ rs ∧ ∃ e, p.1.exception = some e ∧
        d = "\nFailed to fetch " ++ p.2 ++ "\n" ++ e) ∧
    (∀ (r1 r2 : DlResult) (u1 u2 e : String),
      r1.exception = none → r2.exception = some e →
      format_output [(r1, u1), (r2, u2)] =
          ["\nFailed to fetch " ++ u2 ++ "\n" ++ e] ∧
        format_output [(r2, u2), (r1, u1)] =
          ["\nFailed to fetch " ++ u2 ++ "\n" ++ e]) := by
  refine ⟨?_, ?_, ?_, ?_, ?_, ?_⟩
  · intro rs1 rs2
    induction rs1 with
    | nil => rfl
    | cons p rest ih =>
        obtain ⟨r, u⟩ := p
        cases h : r.exception with
        | none => simp [format_output, h, ih]
        | some e => simp [format_output, h, ih]
  · intro r u e h
    simp [format_output, h]
  · intro r u h
    simp [format_output, h]
  · intro rs
    induction rs with
    | nil => rfl
    | cons p rest ih =>
        obtain ⟨r, u⟩ := p
        cases h : r.exception with
        | none => simp [format_output, List.filter_cons, h, ih]
        | some e => simp [format_output, List.filter_cons, h, ih]
  · intro rs d hd
    induction rs with
    | nil => cases hd
    | cons p rest ih =>
        obtain ⟨r, u⟩ := p
        cases h : r.exception with
        | none =>
            rw [show format_output ((r, u) :: rest) = format_output rest
              from by simp [format_output, h]] at hd
            obtain ⟨q, hq, e2, he2, hde2⟩ := ih hd
            exact ⟨q, List.mem_cons_of_mem _ hq, e2, he2, hde2⟩
        | some e =>
            rw [show format_output ((r, u) :: rest) =
              ("\nFailed to fetch " ++ u ++ "\n" ++ e) ::
                format_output rest from by simp [format_output, h]] at hd
            rcases List.mem_cons.mp hd with hde | hd2
            · exact ⟨(r, u), List.mem_cons_self _ _, e, h, hde⟩
            · obtain ⟨q, hq, e2, he2, hde2⟩ := ih hd2
              exact ⟨q, List.mem_cons_of_mem _ hq, e2, he2, hde2⟩
  · intro r1 r2 u1 u2 e h1 h2
    constructor <;> simp [format_output, h1, h2]

/-- C3 witness: the theorem applied to actual `download` runs — a write
failure yields exactly its own diagnostic and a clean transfer yields
none (also when appended into a longer batch); the diagnostic count of a
three-entry batch with two raising entries is two; the emitted diagnostic
of the mixed two-entry batch traces back to its raising entry; and the
two-URL batch with one raising entry yields exactly one diagnostic, for
that URL, in either order. -/
theorem claim_C3_witness :
    format_output [(download "http://host/g.bin" (Except.ok respFile)
        "out" 16 evNever wfAtZero emptyFS 2, "u2")] =
      ["\nFailed to fetch " ++ "u2" ++ "\n" ++ "OSError"] ∧
    format_output [(download "http://host/f.bin" (Except.ok respFile)
      "out" 16 evNever wfNever emptyFS 2, "u1")] = [] ∧
    format_output ([(download "http://host/f.bin" (Except.ok respFile)
        "out" 16 evNever wfNever emptyFS 2, "u1")] ++
      [(download "http://host/g.bin" (Except.ok respFile) "out" 16
          evNever wfAtZero emptyFS 2, "u2"),
        (download "http://host/g.bin" (Except.ok respFile) "out" 16
          evNever wfAtZero emptyFS 2, "u3")]) =
      format_output [(download "http://host/f.bin" (Except.ok respFile)
        "out" 16 evNever wfNever emptyFS 2, "u1")] ++
      format_output [(download "http://host/g.bin" (Except.ok respFile)
          "out" 16 evNever wfAtZero emptyFS 2, "u2"),
        (download "http://host/g.bin" (Except.ok respFile) "out" 16
          evNever wfAtZero emptyFS 2, "u3")] ∧
    (format_output [(download "http://host/f.bin" (Except.ok respFile)
        "out" 16 evNever wfNever emptyFS 2, "u1"),
      (download "http://host/g.bin" (Except.ok respFile) "out" 16
        evNever wfAtZero emptyFS 2, "u2"),
      (download "http://host/g.bin" (Except.ok respFile) "out" 16
        evNever wfAtZero emptyFS 2, "u3")]).length =
      ([(download "http://host/f.bin" (Except.ok respFile) "out" 16
          evNever wfNever emptyFS 2, "u1"),
        (download "http://host/g.bin" (Except.ok respFile) "out" 16
          evNever wfAtZero emptyFS 2, "u2"),
        (download "http://host/g.bin" (Except.ok respFile) "out" 16
          evNever wfAtZero emptyFS 2, "u3")].filter
        (fun p => p.1.exception.isSome)).length ∧
    (∃ p, p ∈ [(download "http://host/f.bin" (Except.ok respFile) "out"
          16 evNever wfNever emptyFS 2, "u1"),
        (download "http://host/g.bin" (Except.ok respFile) "out" 16
          evNever wfAtZero emptyFS 2, "u2")] ∧
      ∃ e, p.1.exception = some e ∧
        "\nFailed to fetch " ++ "u2" ++ "\n" ++ "OSError" =
          "\nFailed to fetch " ++ p.2 ++ "\n" ++ e) ∧
    format_output [(download "http://host/f.bin" (Except.ok respFile)
        "out" 16 evNever wfNever emptyFS 2, "u1"),
      (download "http://host/g.bin" (Except.ok respFile) "out" 16
        evNever wfAtZero emptyFS 2, "u2")] =
      ["\nFailed to fetch " ++ "u2" ++ "\n" ++ "OSError"] ∧
    format_output [(download "http://host/g.bin" (Except.ok respFile)
        "out" 16 evNever wfAtZero emptyFS 2, "u2"),
      (download "http://host/f.bin" (Except.ok respFile) "out" 16
        evNever wfNever emptyFS 2, "u1")] =
      ["\nFailed to fetch " ++ "u2" ++ "\n" ++ "OSError"] := by
  refine ⟨claim_C3_reporter.2.1 _ "u2" "OSError" rfl,
    claim_C3_reporter.2.2.1 _ "u1" rfl,
    claim_C3_reporter.1 _ _,
    claim_C3_reporter.2.2.2.1 _,
    claim_C3_reporter.2.2.2.2.1 _
      ("\nFailed to fetch " ++ "u2" ++ "\n" ++ "OSError") (by decide),
    (claim_C3_reporter.2.2.2.2.2 _ _ "u1" "u2" "OSError" rfl rfl).1,
    (claim_C3_reporter.2.2.2.2.2 _ _ "u1" "u2" "OSError" rfl rfl).2⟩

/-- C3 counterexample: the claim says every entry with a Cancelled
outcome gets a diagnostic, and that a two-URL batch with one failed (404)
entry yields exactly one diagnostic.  In the code a cancelled task and a
validation-failed task both return normally, so their futures carry no
exception and `format_output` emits nothing for them: a cancelled entry
yields zero diagnostics, and a batch of one success plus one 404 failure
yields zero diagnostics, not one. -/
theorem claim_C3_counterexample :
    (download "http://host/f.bin" (Except.ok respFile) "out" 16 evAlways
        wfNever emptyFS 2).term = TermKind.cancelled ∧
    format_output [(download "http://host/f.bin" (Except.ok respFile)
      "out" 16 evAlways wfNever emptyFS 2, "http://host/f.bin")] = [] ∧
    (download "http://host/a.txt" (Except.ok respNotFound) "out" 16
        evNever wfNever emptyFS 1024).term = TermKind.validationFailed ∧
    format_output [(download "http://host/f.bin" (Except.ok respFile)
        "out" 16 evNever wfNever emptyFS 2, "http://host/f.bin"),
      (download "http://host/a.txt" (Except.ok respNotFound) "out" 16
        evNever wfNever emptyFS 1024, "http://host/a.txt")] = [] :=
  ⟨rfl, rfl, rfl, rfl⟩

/-! ### Claim C5 — shape and order of the RunResult -/

/-- C5 (amended): for every nonempty input URL list of length N
(duplicates not deduplicated — each submit call creates a distinct
future), `run_tasks` returns the futures dictionary with exactly N
entries, one per input URL, in input order, and the returned value does
not depend on the order in which the tasks complete (the `as_completed`
iterator is created but never consumed). -/
theorem claim_C5_run_result (dirs : List String) (res_dir : String)
    (urls : List String) (co co' : List Nat)
    (hdir : res_dir ∈ dirs) (hne : urls ≠ []) :
    run_tasks dirs res_dir urls co = Except.ok urls.enum ∧
    urls.enum.length = urls.length ∧
    urls.enum.map Prod.snd = urls ∧
    (urls.enum.map Prod.fst).Nodup ∧
    run_tasks dirs res_dir urls co' = run_tasks dirs res_dir urls co := by
  have hrun : ∀ c, run_tasks dirs res_dir urls c = Except.ok urls.enum := by
    intro c
    cases urls with
    | nil => cases hne rfl
    | cons a as => simp [run_tasks, hdir]
  refine ⟨hrun co, List.enum_length, List.enum_map_snd urls, ?_,
    (hrun co').trans (hrun co).symm⟩
  rw [List.enum_map_fst]
  exact List.nodup_range _

/-- C5 witness: a duplicate two-URL batch gives two distinct entries in
input order, whatever the completion order. -/
theorem claim_C5_witness :
    run_tasks ["out"] "out" ["u", "u"] [1, 0] =
      Except.ok (["u", "u"].enum) ∧
    (["u", "u"].enum).length = ["u", "u"].length ∧
    (["u", "u"].enum).map Prod.snd = ["u", "u"] ∧
    ((["u", "u"].enum).map Prod.fst).Nodup ∧
    run_tasks ["out"] "out" ["u", "u"] [0, 1] =
      run_tasks ["out"] "out" ["u", "u"] [1, 0] :=
  claim_C5_run_result ["out"] "out" ["u", "u"] [1, 0] [0, 1] (by decide)
    (by decide)

/-- C5 counterexample: for the empty input list (N = 0) `run_tasks` does
not return a RunResult with 0 entries — it raises the `ValueError` coming
from the label-width computation, so the claim fails at N = 0. -/
theorem claim_C5_counterexample :
    run_tasks ["out"] "out" [] [] = Except.error PyError.valueError ∧
    run_tasks ["out"] "out" [] [] ≠ Except.ok [] := by
  constructor
  · rfl
  · intro h
    rw [show run_tasks ["out"] "out" [] [] =
      Except.error PyError.valueError from rfl] at h
    exact Except.noConfusion h

/-! ### Claim C6 — missing output directory -/

/-- C6: if the output directory does not exist, `run_tasks` fails fast
with the failed `assert res_dir.exists()` of line 73 (the spec taxonomy's
`InvalidArgument`) before any download work is dispatched: the trace
holds only the failing assert and the raised error — no submit event and
no directory-creation event ever occurs. -/
theorem claim_C6_missing_dir (dirs : List String) (res_dir : String)
    (urls : List String) (co : List Nat) (intr : Option Interrupt)
    (i : Nat) (u d : String) (hdir : res_dir ∉ dirs) :
    run_tasks dirs res_dir urls co =
      Except.error PyError.assertionFailed ∧
    runTasksTrace false urls intr =
      [Ev.assertDir false, Ev.raiseError PyError.assertionFailed] ∧
    Ev.submit i u ∉ runTasksTrace false urls intr ∧
    Ev.mkdir d ∉ runTasksTrace false urls intr := by
  refine ⟨by simp [run_tasks, hdir], rfl, ?_, ?_⟩ <;> simp [runTasksTrace]

/-- C6 witness: a concrete missing directory. -/
theorem claim_C6_witness :
    run_tasks [] "out" ["http://host/a.txt"] [] =
      Except.error PyError.assertionFailed ∧
    runTasksTrace false ["http://host/a.txt"] none =
      [Ev.assertDir false, Ev.raiseError PyError.assertionFailed] ∧
    Ev.submit 0 "http://host/a.txt" ∉
      runTasksTrace false ["http://host/a.txt"] none ∧
    Ev.mkdir "out" ∉ runTasksTrace false ["http://host/a.txt"] none :=
  claim_C6_missing_dir [] "out" ["http://host/a.txt"] [] none 0
    "http://host/a.txt" "out" (by decide)

/-! ### Claim C9 — empty URL list -/

/-- C9: for the empty input URL list, `run_tasks` passes the directory
assert and then raises the `ValueError` of the label-width computation
(`max` over an empty sequence, line 75) instead of returning an empty
RunResult; the trace shows the error is raised before any progress bar is
created or any work is dispatched. -/
theorem claim_C9_empty_batch (dirs : List String) (res_dir : String)
    (co : List Nat) (intr : Option Interrupt) (hdir : res_dir ∈ dirs) :
    run_tasks dirs res_dir [] co = Except.error PyError.valueError ∧
    run_tasks dirs res_dir [] co ≠ Except.ok [] ∧
    runTasksTrace true [] intr =
      [Ev.assertDir true, Ev.computeMaxLen,
        Ev.raiseError PyError.valueError] := by
  have h : run_tasks dirs res_dir [] co = Except.error PyError.valueError :=
    by simp [run_tasks, hdir]
  exact ⟨h, by simp [h], rfl⟩

/-- C9 witness. -/
theorem claim_C9_witness :
    run_tasks ["out"] "out" [] [] = Except.error PyError.valueError ∧
    run_tasks ["out"] "out" [] [] ≠ Except.ok [] ∧
    runTasksTrace true [] none =
      [Ev.assertDir true, Ev.computeMaxLen,
        Ev.raiseError PyError.valueError] :=
  claim_C9_empty_batch ["out"] "out" [] none (by decide)

/-! ### Claim C1 — interrupt handling order in the orchestrator -/

/-- Scanning past a prefix that contains no `evSet` does not change the
answer of `drainsAfterSignal`. -/
theorem drainsAfterSignal_append (pre s : List Ev)
    (hp : Ev.evSet ∉ pre) :
    drainsAfterSignal (pre ++ s) = drainsAfterSignal s := by
  induction pre with
  | nil => rfl
  | cons a rest ih =>
      have ha : ¬ a = Ev.evSet :=
        fun h => hp (h ▸ List.mem_cons_self a rest)
      have hrest := ih (fun h => hp (List.mem_cons_of_mem a h))
      simp [drainsAfterSignal, ha, hrest]

/-- C1 (amended): when an external interrupt arrives while `run_tasks`
has in-flight downloads, the orchestrator signals the cancellation token
and then immediately closes the progress bars and re-raises the
interrupt; it performs no wait for in-flight tasks after signalling (the
executor join, when it completes at all, does so before the token is
signalled, because the `with` block's `__exit__` runs before the `except`
handler).  Formally: every interrupted trace ends with the exact suffix
`[evSet, closeBars, reraise]`, the token is signalled nowhere earlier,
and no signal-then-complete-wait-then-reraise pattern occurs. -/
theorem claim_C1_interrupt_no_drain_after_signal (urls : List String)
    (i : Interrupt) (hne : urls ≠ []) :
    ∃ pre, runTasksTrace true urls (some i) =
        pre ++ [Ev.evSet, Ev.closeBars, Ev.reraise] ∧
      Ev.evSet ∉ pre ∧
      drainsAfterSignal (runTasksTrace true urls (some i)) = false := by
  have hkey : ∃ pre, runTasksTrace true urls (some i) =
      pre ++ [Ev.evSet, Ev.closeBars, Ev.reraise] ∧ Ev.evSet ∉ pre := by
    cases urls with
    | nil => cases hne rfl
    | cons a as =>
        cases i with
        | duringSubmit k =>
            refine ⟨Ev.assertDir true :: Ev.computeMaxLen ::
              Ev.createBars (a :: as).length ::
              (submitEvents ((a :: as).take k) ++ [Ev.waitAll]), ?_, ?_⟩
            · simp [runTasksTrace]
            · simp [submitEvents]
        | duringWait =>
            refine ⟨Ev.assertDir true :: Ev.computeMaxLen ::
              Ev.createBars (a :: as).length ::
              (submitEvents (a :: as) ++
                [Ev.asCompleted, Ev.waitInterrupted]), ?_, ?_⟩
            · simp [runTasksTrace]
            · simp [submitEvents]
  obtain ⟨pre, hEq, hpre⟩ := hkey
  refine ⟨pre, hEq, hpre, ?_⟩
  rw [hEq, drainsAfterSignal_append pre _ hpre]
  rfl

/-- C1 witness: a one-URL batch interrupted during the executor wait. -/
theorem claim_C1_witness :
    ∃ pre, runTasksTrace true ["http://host/a.txt"]
        (some Interrupt.duringWait) =
        pre ++ [Ev.evSet, Ev.closeBars, Ev.reraise] ∧
      Ev.evSet ∉ pre ∧
      drainsAfterSignal (runTasksTrace true ["http://host/a.txt"]
        (some Interrupt.duringWait)) = false :=
  claim_C1_interrupt_no_drain_after_signal ["http://host/a.txt"]
    Interrupt.duringWait (by decide)

/-- C1 counterexample: in the concrete trace of a two-URL batch
interrupted during the executor wait, the token is signalled and the
interrupt is re-raised, but no completed wait for in-flight work occurs
between the two — the claimed signal-then-drain-then-re-raise order does
not happen. -/
theorem claim_C1_counterexample :
    Ev.evSet ∈ runTasksTrace true ["http://host/a.txt", "http://host/b"]
      (some Interrupt.duringWait) ∧
    Ev.reraise ∈ runTasksTrace true ["http://host/a.txt", "http://host/b"]
      (some Interrupt.duringWait) ∧
    drainsAfterSignal (runTasksTrace true
      ["http://host/a.txt", "http://host/b"]
      (some Interrupt.duringWait)) = false := by
  refine ⟨?_, ?_, rfl⟩ <;> decide

/-! ### Claim C8 — read_urls -/

/-- The first element surviving `dropWhile isPySpace` is not whitespace. -/
theorem head_dropWhile_not_space (l : List Char) :
    ((l.dropWhile isPySpace).head?.elim false isPySpace) = false := by
  induction l with
  | nil => rfl
  | cons a rest ih =>
      by_cases h : isPySpace a = true
      · simpa [List.dropWhile_cons, h] using ih
      · simp [List.dropWhile_cons, h]

/-- A string of only whitespace strips to the empty string. -/
theorem pyStrip_blank (l : String) (h : l.data.all isPySpace = true) :
    pyStrip l = "" := by
  have h1 : l.data.dropWhile isPySpace = [] :=
    List.dropWhile_eq_nil_iff.mpr (fun x hx => (List.all_eq_true.mp h) x hx)
  simp [pyStrip, h1]

/-- `pyStrip` removes exactly a leading and a trailing run of
whitespace: the original character list decomposes around the stripped
one. -/
theorem pyStrip_decomp (t : String) :
    ∃ a b, a.all isPySpace = true ∧ b.all isPySpace = true ∧
      t.data = a ++ (pyStrip t).data ++ b := by
  refine ⟨t.data.takeWhile isPySpace,
    ((t.data.dropWhile isPySpace).reverse.takeWhile isPySpace).reverse,
    ?_, ?_, ?_⟩
  · exact List.all_eq_true.mpr (fun x hx => List.mem_takeWhile_imp hx)
  · exact List.all_eq_true.mpr
      (fun x hx => List.mem_takeWhile_imp (List.mem_reverse.mp hx))
  · have hd1 : t.data.dropWhile isPySpace =
        ((t.data.dropWhile isPySpace).reverse.dropWhile
          isPySpace).reverse ++
        ((t.data.dropWhile isPySpace).reverse.takeWhile
          isPySpace).reverse := by
      conv_lhs =>
        rw [← List.reverse_reverse (t.data.dropWhile isPySpace),
          ← List.takeWhile_append_dropWhile isPySpace
            (t.data.dropWhile isPySpace).reverse,
          List.reverse_append]
    calc t.data
        = t.data.takeWhile isPySpace ++ t.data.dropWhile isPySpace :=
          (List.takeWhile_append_dropWhile _ _).symm
      _ = t.data.takeWhile isPySpace ++
            (((t.data.dropWhile isPySpace).reverse.dropWhile
                isPySpace).reverse ++
              ((t.data.dropWhile isPySpace).reverse.takeWhile
                isPySpace).reverse) :=
          congrArg (fun x => t.data.takeWhile isPySpace ++ x) hd1
      _ = t.data.takeWhile isPySpace ++ (pyStrip t).data ++
            ((t.data.dropWhile isPySpace).reverse.takeWhile
              isPySpace).reverse :=
          (List.append_assoc _ _ _).symm

/-- The stripped string neither starts nor ends with whitespace. -/
theorem pyStrip_noEdgeSpace (t : String) :
    noEdgeSpace (pyStrip t) = true := by
  cases hE : (t.data.dropWhile isPySpace).reverse.dropWhile isPySpace with
  | nil =>
      have hempty : pyStrip t = "" := by simp [pyStrip, hE]
      rw [hempty]; rfl
  | cons c e' =>
      have hdata : (pyStrip t).data = (c :: e').reverse := by
        simp [pyStrip, hE]
      have hgl : (c :: e').getLast? =
          (t.data.dropWhile isPySpace).head? := by
        obtain ⟨pre, hpre⟩ := List.dropWhile_suffix
          (l := (t.data.dropWhile isPySpace).reverse) isPySpace
        rw [hE] at hpre
        calc (c :: e').getLast? = (pre ++ c :: e').getLast? :=
              (List.getLast?_append_of_ne_nil pre (by simp)).symm
          _ = (t.data.dropWhile isPySpace).reverse.getLast? := by
              rw [hpre]
          _ = (t.data.dropWhile isPySpace).head? :=
              List.getLast?_reverse _
      have h1 : ((c :: e').getLast?.elim false isPySpace) = false := by
        rw [hgl]; exact head_dropWhile_not_space t.data
      have h2 : ((c :: e').head?.elim false isPySpace) = false := by
        have := head_dropWhile_not_space
          (t.data.dropWhile isPySpace).reverse
        rwa [hE] at this
      unfold noEdgeSpace
      rw [hdata, List.head?_reverse, List.getLast?_reverse, h1, h2]
      rfl

/-- C8: `read_urls` returns exactly one URL per line of the input file —
blank lines are not filtered, positions are preserved — with each line
stripped of its leading and trailing whitespace (and of nothing else);
a whitespace-only line becomes a literal empty-string URL. -/
theorem claim_C8_read_urls (s t l : String) (i : Nat)
    (hl : l.data.all isPySpace = true) :
    (read_urls s).length = (pyReadlines s).length ∧
    (read_urls s)[i]? = ((pyReadlines s)[i]?).map pyStrip ∧
    pyStrip l = "" ∧
    noEdgeSpace (pyStrip t) = true ∧
    (∃ a b, a.all isPySpace = true ∧ b.all isPySpace = true ∧
      t.data = a ++ (pyStrip t).data ++ b) :=
  ⟨List.length_map _ _, List.getElem?_map _ _ _, pyStrip_blank l hl,
    pyStrip_noEdgeSpace t, pyStrip_decomp t⟩

/-- C8 witness: a file with a whitespace-only middle line yields three
URLs, the middle one empty; the second line strips to a URL with no
surrounding whitespace. -/
theorem claim_C8_witness :
    (read_urls "http://host/a.txt\n \n  http://host/b  ").length =
      (pyReadlines "http://host/a.txt\n \n  http://host/b  ").length ∧
    (read_urls "http://host/a.txt\n \n  http://host/b  ")[1]? =
      ((pyReadlines "http://host/a.txt\n \n  http://host/b  ")[1]?).map
        pyStrip ∧
    pyStrip " \n" = "" ∧
    noEdgeSpace (pyStrip "  http://host/b  ") = true ∧
    (∃ a b, a.all isPySpace = true ∧ b.all isPySpace = true ∧
      "  http://host/b  ".data =
        a ++ (pyStrip "  http://host/b  ").data ++ b) :=
  claim_C8_read_urls "http://host/a.txt\n \n  http://host/b  "
    "  http://host/b  " " \n" 1 (by decide)

end PyGet
